import Mathlib

/-!
Verification development for the Flashpoint historical wildfire analytics
engine.  The TypeScript sources are shallowly embedded over exact rationals:
JavaScript numbers become `ℚ` (decimal literals are read as exact rationals,
and the literal `Math.PI` becomes the exact value of the IEEE-754 double
`Math.PI`), fallible computations become `Option`, and the transcendental
geometry kernels (haversine distance, bearings, `Math.sqrt`, `Math.atan`)
are passed in as explicit function parameters, so every theorem quantifies
over the kernel where the source calls it.  Strings are Lean `String`s;
`String.prototype.includes` is modelled by an explicit substring scan.
-/

namespace Flashpoint

/-! ## JavaScript numeric primitives -/

/-- Truncation of a rational toward zero, matching the rounding JavaScript
applies when evaluating the remainder operator. -/
def truncQ (q : ℚ) : ℤ := if 0 ≤ q then ⌊q⌋ else ⌈q⌉

/-- Model of the JavaScript remainder operator on numbers: the result has the
sign of the dividend (`a - b * trunc (a / b)`). -/
def jsMod (a b : ℚ) : ℚ := a - b * (truncQ (a / b) : ℚ)

/-- Model of `Math.round`: round half toward positive infinity. -/
def roundJS (q : ℚ) : ℤ := ⌊q + 1 / 2⌋

/-- Exact rational value of the IEEE-754 double constant `Math.PI`. -/
def piJS : ℚ := 884279719003555 / 281474976710656

theorem piJS_pos : 0 < piJS := by norm_num [piJS]

theorem roundJS_nonneg {q : ℚ} (h : 0 ≤ q) : 0 ≤ roundJS q := by
  have : (0 : ℤ) ≤ ⌊q + 1 / 2⌋ := by
    apply Int.le_floor.mpr
    push_cast
    linarith
  simpa [roundJS] using this

theorem roundJS_le_int {q : ℚ} {n : ℤ} (h : q ≤ n) : roundJS q ≤ n := by
  have h1 : ⌊q + 1 / 2⌋ ≤ ⌊(n : ℚ) + 1 / 2⌋ := Int.floor_le_floor (by linarith)
  have h2 : ⌊(n : ℚ) + 1 / 2⌋ = n + ⌊(1 / 2 : ℚ)⌋ := Int.floor_int_add n _
  have h3 : ⌊(1 / 2 : ℚ)⌋ = 0 := by norm_num
  simp only [roundJS]
  omega

/-! ## JavaScript string primitives -/

/-- Character-list version of testing that the first list starts the second. -/
def leadsWith : List Char → List Char → Bool
  | [], _ => true
  | _ :: _, [] => false
  | a :: as, b :: bs => a == b && leadsWith as bs

/-- Substring scan over character lists, modelling
`String.prototype.includes`. -/
def findSub (need : List Char) : List Char → Bool
  | [] => leadsWith need []
  | c :: t => leadsWith need (c :: t) || findSub need t

/-- Model of `hay.includes(need)` on strings. -/
def includesJS (hay need : String) : Bool := findSub need.toList hay.toList

/-- Model of `String.prototype.toLowerCase` (ASCII data throughout),
written over the character list so it evaluates by kernel reduction. -/
def lowerStr (s : String) : String := String.mk (s.toList.map Char.toLower)

/-- Whitespace test of `String.prototype.trim`. -/
def isWSChar (c : Char) : Bool :=
  c == ' ' || c == '\t' || c == '\n' || c == '\r'

/-- Model of `String.prototype.trim`, written over the character list. -/
def trimJS (s : String) : String :=
  String.mk (((s.toList.dropWhile isWSChar).reverse.dropWhile isWSChar).reverse)

/-- Number-to-text rendering used for template literals, `toFixed`, and
`toLocaleString`.  The digit formatting itself is abstracted to the default
rendering of the rational; no theorem below depends on the digits of a
formatted number, only on the identity and count of the produced strings. -/
def fmtNum (q : ℚ) : String := toString q

/-! ## A stable insertion sort modelling `Array.prototype.sort`

JavaScript's `sort` (ES2019 and later) is a stable comparison sort; the
comparators in this code base are all of the shape `(a, b) => k a - k b`, so
the result is a stable sort by the boolean relation `k a ≤ k b`.  We model it
with a stable insertion sort, inserting every element after the existing
elements that compare less-or-equal to it. -/

def insertLe {α : Type} (le : α → α → Bool) (x : α) : List α → List α
  | [] => [x]
  | y :: ys => if le y x then y :: insertLe le x ys else x :: y :: ys

/-- Stable sort by the boolean relation `le`, modelling `Array.sort`. -/
def sortJS {α : Type} (le : α → α → Bool) (l : List α) : List α :=
  l.foldl (fun acc x => insertLe le x acc) []

theorem mem_insertLe {α : Type} {le : α → α → Bool} {x a : α} :
    ∀ {l : List α}, a ∈ insertLe le x l ↔ a = x ∨ a ∈ l := by
  intro l
  induction l with
  | nil => simp [insertLe]
  | cons y ys ih =>
    cases h : le y x with
    | true =>
      simp only [insertLe, h, if_true, List.mem_cons, ih]
      tauto
    | false =>
      simp only [insertLe, h, Bool.false_eq_true, if_false, List.mem_cons]

theorem length_insertLe {α : Type} {le : α → α → Bool} {x : α} :
    ∀ {l : List α}, (insertLe le x l).length = l.length + 1 := by
  intro l
  induction l with
  | nil => simp [insertLe]
  | cons y ys ih =>
    by_cases h : le y x = true
    · simp [insertLe, h, ih]
    · simp [insertLe, h]

theorem pairwise_insertLe {α : Type} {le : α → α → Bool}
    (htrans : ∀ a b c, le a b = true → le b c = true → le a c = true)
    (htotal : ∀ a b, le a b = true ∨ le b a = true) (x : α) :
    ∀ {l : List α}, l.Pairwise (fun a b => le a b = true) →
      (insertLe le x l).Pairwise (fun a b => le a b = true) := by
  intro l
  induction l with
  | nil => intro _; simp [insertLe]
  | cons y ys ih =>
    intro hp
    rcases List.pairwise_cons.mp hp with ⟨hy, hys⟩
    by_cases h : le y x = true
    · simp only [insertLe, h, if_true]
      refine List.pairwise_cons.mpr ⟨?_, ih hys⟩
      intro z hz
      rcases mem_insertLe.mp hz with rfl | hz
      · exact h
      · exact hy z hz
    · have hxy : le x y = true := (htotal x y).resolve_right (by simpa using h)
      simp only [insertLe, h, if_false]
      refine List.pairwise_cons.mpr ⟨?_, hp⟩
      intro z hz
      rcases List.mem_cons.mp hz with rfl | hz
      · exact hxy
      · exact htrans x y z hxy (hy z hz)

theorem mem_sortJS {α : Type} {le : α → α → Bool} {a : α} {l : List α} :
    a ∈ sortJS le l ↔ a ∈ l := by
  suffices h : ∀ (l acc : List α),
      (a ∈ l.foldl (fun acc x => insertLe le x acc) acc ↔ a ∈ l ∨ a ∈ acc) by
    simpa [sortJS] using h l []
  intro l
  induction l with
  | nil => intro acc; simp
  | cons x xs ih =>
    intro acc
    simp only [List.foldl_cons, ih, mem_insertLe, List.mem_cons]
    tauto

theorem length_sortJS {α : Type} {le : α → α → Bool} {l : List α} :
    (sortJS le l).length = l.length := by
  suffices h : ∀ (l acc : List α),
      (l.foldl (fun acc x => insertLe le x acc) acc).length
        = l.length + acc.length by
    simpa [sortJS] using h l []
  intro l
  induction l with
  | nil => intro acc; simp
  | cons x xs ih =>
    intro acc
    simp only [List.foldl_cons, ih, length_insertLe, List.length_cons]
    omega

theorem pairwise_sortJS {α : Type} {le : α → α → Bool}
    (htrans : ∀ a b c, le a b = true → le b c = true → le a c = true)
    (htotal : ∀ a b, le a b = true ∨ le b a = true) (l : List α) :
    (sortJS le l).Pairwise (fun a b => le a b = true) := by
  suffices h : ∀ (l acc : List α),
      acc.Pairwise (fun a b => le a b = true) →
      (l.foldl (fun acc x => insertLe le x acc) acc).Pairwise
        (fun a b => le a b = true) by
    exact h l [] (by simp)
  intro l
  induction l with
  | nil => intro acc hacc; simpa using hacc
  | cons x xs ih =>
    intro acc hacc
    exact ih _ (pairwise_insertLe htrans htotal x hacc)

/-! ## Terrain analyzer (src/lib/terrain.ts)

The elevation model, slope and aspect computation, the mock
`getTerrainMetrics` entry point, and the terrain-text similarity score.
`Math.atan` is passed in as the parameter `atanF`; the two `Math.random`
draw sites inside `getTerrainMetrics` are made explicit as the arguments
`r1 r2 r3 r4`, consumed in the order the source calls `Math.random()`
(`r1` for the slope, `r2` for the ridgeline test, `r3` and `r4` for the
ridgeline distance and direction when a ridgeline is present). -/

/-- Snapshot of terrain at one location, mirroring the `TerrainMetrics`
interface field for field. -/
structure TerrainMetrics where
  elevation : ℚ
  slope : ℚ
  slopeAngle : ℚ
  aspect : String
  aspectDegrees : ℚ
  nearbyRidgeline : Bool
  ridgelineDistKm : Option ℚ
  ridgelineDirection : Option String
  terrainType : String
  notes : List String
deriving DecidableEq

namespace Terrain

/-- Eight-direction compass table of `degreesToCardinal`. -/
def directions8 : List String := ["N", "NE", "E", "SE", "S", "SW", "W", "NW"]

/-- Model of `degreesToCardinal`: `Math.round(degrees / 45) % 8` indexes the
compass table.  A negative JavaScript index would read `undefined` from the
array; that corner is represented by the default entry and is not exercised
by any theorem below. -/
def degreesToCardinal (degrees : ℚ) : String :=
  let index : ℤ := (roundJS (degrees / 45)).tmod 8
  directions8.getD index.toNat "N"

/-- Model of `calculateAspect`.  The branch guard in the source is
`Math.sqrt(dz_dx² + dz_dy²) < 0.01`, which for the nonnegative radicand is
equivalent to the rational comparison `dz_dx² + dz_dy² < 0.0001` used here;
`Math.atan2` is the abstract parameter `atan2F`. -/
def calculateAspect (atan2F : ℚ → ℚ → ℚ)
    (centerElev northElev southElev eastElev westElev cellSize : ℚ) :
    ℚ × String :=
  let dzdx := (eastElev - westElev) / (2 * cellSize)
  let dzdy := (northElev - southElev) / (2 * cellSize)
  let aspectRad := atan2F dzdy (-dzdx)
  let aspectDeg0 := aspectRad * 180 / piJS
  let aspectDeg := jsMod (90 - aspectDeg0 + 360) 360
  if dzdx ^ 2 + dzdy ^ 2 < 1 / 10000 then (0, "flat")
  else (aspectDeg, degreesToCardinal aspectDeg)

/-- Model of `categorizeSlope`. -/
def categorizeSlope (slopePercent : ℚ) : String :=
  if slopePercent < 5 then "flat"
  else if slopePercent < 15 then "gentle"
  else if slopePercent < 30 then "moderate"
  else if slopePercent < 50 then "steep"
  else "extreme"

/-- Model of `detectRidgeline` with its default 20 m threshold. -/
def detectRidgeline (centerElev northElev southElev eastElev westElev : ℚ)
    (threshold : ℚ := 20) : Bool :=
  decide (northElev + threshold < centerElev) &&
  decide (southElev + threshold < centerElev) &&
  decide (eastElev + threshold < centerElev) &&
  decide (westElev + threshold < centerElev)

/-- Model of `generateTerrainNotes`. -/
def generateTerrainNotes (metrics : TerrainMetrics) : List String :=
  (if 30 < metrics.slope then
    ["Steep terrain - fire can spread 3-5x faster uphill"]
  else if 15 < metrics.slope then
    ["Moderate slopes increase uphill fire spread rate by 2-3x"]
  else []) ++
  (if metrics.aspect = "S" ∨ metrics.aspect = "SW" ∨ metrics.aspect = "SE" then
    [metrics.aspect ++ "-facing slope receives more sun exposure - expect drier fuels"]
  else []) ++
  (match metrics.ridgelineDistKm with
   | some d =>
     if metrics.nearbyRidgeline ∧ d ≠ 0 then
       ["Ridgeline " ++ fmtNum d ++ "km " ++
         (metrics.ridgelineDirection.getD "") ++
         " - potential natural control line"]
     else []
   | none => [])

/-- Model of the mock `getTerrainMetrics`.  `atanF` stands for `Math.atan`
and `r1 r2 r3 r4` for the successive `Math.random()` draws. -/
def getTerrainMetrics (atanF : ℚ → ℚ) (lat lon r1 r2 r3 r4 : ℚ) :
    TerrainMetrics :=
  let mockElevation := 200 + |lat - 37| * 100
  let mockSlope := 10 + r1 * 20
  let mockAspectDeg := jsMod (lon * 10) 360
  let mockAspect := degreesToCardinal mockAspectDeg
  let mockNearbyRidge := decide (20 < mockSlope) && decide ((3 : ℚ) / 5 < r2)
  let mockRidgeDist : Option ℚ :=
    if mockNearbyRidge then some (1 / 2 + r3 * 3 / 2) else none
  let mockRidgeDir : Option String :=
    if mockNearbyRidge then some (degreesToCardinal (r4 * 360)) else none
  let metrics : TerrainMetrics :=
    { elevation := mockElevation
      slope := mockSlope
      slopeAngle := atanF (mockSlope / 100) * 180 / piJS
      aspect := mockAspect
      aspectDegrees := mockAspectDeg
      nearbyRidgeline := mockNearbyRidge
      ridgelineDistKm := mockRidgeDist
      ridgelineDirection := mockRidgeDir
      terrainType := categorizeSlope mockSlope
      notes := [] }
  { metrics with notes := generateTerrainNotes metrics }

/-- Model of `calculateTerrainSimilarity`: keyword co-occurrence score
between the current terrain and the lowercased IAP text, capped at 100. -/
def calculateTerrainSimilarity (currentMetrics : TerrainMetrics)
    (iapText : String) : ℚ :=
  let lowerText := lowerStr iapText
  let s1 : ℚ :=
    if 25 < currentMetrics.slope ∧
        (includesJS lowerText "steep" ∨ includesJS lowerText "rugged") then 30
    else if 15 < currentMetrics.slope ∧ includesJS lowerText "slope" then 20
    else if currentMetrics.slope < 10 ∧
        (includesJS lowerText "flat" ∨ includesJS lowerText "level") then 25
    else 0
  let s2 : ℚ :=
    if currentMetrics.nearbyRidgeline ∧ includesJS lowerText "ridge" then 25
    else 0
  let s3 : ℚ :=
    if includesJS lowerText "terrain" ∨ includesJS lowerText "topography" ∨
        includesJS lowerText "elevation" ∨ includesJS lowerText "canyon" ∨
        includesJS lowerText "valley" then 15
    else 0
  let s4 : ℚ :=
    if includesJS lowerText (lowerStr currentMetrics.aspect ++ "-facing") ∨
        includesJS lowerText (lowerStr currentMetrics.aspect ++ " facing") then 10
    else 0
  min (s1 + s2 + s3 + s4) 100

theorem calculateTerrainSimilarity_nonneg (m : TerrainMetrics) (t : String) :
    0 ≤ calculateTerrainSimilarity m t := by
  unfold calculateTerrainSimilarity
  dsimp only
  refine le_min ?_ (by norm_num)
  repeat' split
  all_goals norm_num

theorem calculateTerrainSimilarity_le (m : TerrainMetrics) (t : String) :
    calculateTerrainSimilarity m t ≤ 100 := by
  unfold calculateTerrainSimilarity
  exact min_le_right _ _

end Terrain

/-! ## IAP data model (src/lib/types.ts as used by src/lib/iap)

Optional fields of the TypeScript records become `Option`; JavaScript
truthiness tests on them are modelled by `truthyStr` and `truthyNum`
(`undefined`, the empty string and `0` are falsy). -/

/-- Historical weather block of an IAP record. -/
structure IAPWeatherData where
  windSpeedMps : Option ℚ
  humidityPct : Option ℚ
deriving DecidableEq

/-- Conditions block of an IAP record. -/
structure IAPConditions where
  fuel : Option String
  weather : Option IAPWeatherData
  acres : Option ℚ
deriving DecidableEq

/-- One typed section of an IAP document. -/
structure IAPSection where
  type : String
  content : String
deriving DecidableEq

/-- Location block of an IAP record. -/
structure IAPLocation where
  county : Option String
deriving DecidableEq

/-- Static historical IAP document. -/
structure IAPData where
  id : String
  incidentName : String
  location : IAPLocation
  conditions : IAPConditions
  sections : List IAPSection
  tacticalLessons : List String
  rawText : Option String
deriving DecidableEq

/-- Recommendation-card category. -/
inductive CardType where
  | tactics
  | resources
  | evacuation
deriving DecidableEq

/-- Perimeter estimate of the current incident. -/
structure IncidentPerimeter where
  radiusMeters : ℚ
deriving DecidableEq

/-- Current incident context. -/
structure Incident where
  name : String
  lat : ℚ
  lon : ℚ
  fuelProxy : String
  perimeter : IncidentPerimeter
deriving DecidableEq

/-- Current weather context. -/
structure Weather where
  windSpeedMps : ℚ
  humidityPct : ℚ
  windDirDeg : ℚ
  temperatureC : ℚ
deriving DecidableEq

/-- Output of IAP matching. -/
structure IAPInsight where
  iapId : String
  iapName : String
  relevanceScore : ℤ
  tacticalSnippet : String
  sectionType : String
  reasoning : List String
deriving DecidableEq

/-- JavaScript truthiness of an optional string (`undefined` and the empty
string are falsy). -/
def truthyStr : Option String → Bool
  | none => false
  | some s => decide (s ≠ "")

/-- JavaScript truthiness of an optional number (`undefined` and `0` are
falsy). -/
def truthyNum : Option ℚ → Bool
  | none => false
  | some q => decide (q ≠ 0)

namespace IAP

/-! ### Constants (src/lib/iap/constants.ts) -/

/-- Model of the record `FUEL_COMPATIBILITY_MAP`; an unknown key yields
`none`, matching an `undefined` lookup. -/
def FUEL_COMPATIBILITY_MAP (fuel : String) : Option (List String) :=
  if fuel = "grass" then some ["grass", "mixed"]
  else if fuel = "brush" then some ["brush", "chaparral", "mixed"]
  else if fuel = "mixed" then some ["mixed", "grass", "brush"]
  else if fuel = "chaparral" then some ["chaparral", "brush"]
  else none

/-- Relevant ICS sections for each card type. -/
def RELEVANT_SECTIONS : CardType → List String
  | .tactics => ["ICS-202", "ICS-204", "ICS-220"]
  | .resources => ["ICS-203", "ICS-204"]
  | .evacuation => ["ICS-202"]

/-- Focus keywords for each card type. -/
def FOCUS_KEYWORDS : CardType → List String
  | .evacuation =>
    ["wind", "gust", "humidity", "weather", "rapid spread",
     "extreme fire behavior", "red flag", "wind shift", "wind-driven"]
  | .resources =>
    ["contained", "containment", "escaped", "successful", "effective",
     "additional resources", "resource", "personnel", "equipment",
     "initial attack"]
  | .tactics =>
    ["terrain", "slope", "ridge", "topography", "uphill", "downhill",
     "canyon", "valley", "elevation", "natural barrier", "road", "highway"]

/-- Minimum score threshold for IAP relevance. -/
def MIN_IAP_SCORE : ℤ := 60

/-- Maximum number of IAP insights to return. -/
def MAX_IAP_INSIGHTS : ℕ := 3

/-! ### Scoring (src/lib/iap/scoring.ts)

The running `score +=` accumulation of `calculateIAPSimilarity` is written
as the sum of one named term per numbered rubric block of the source, in
source order; the returned value is `Math.round` of the total. -/

/-- Rubric block 1 of `calculateIAPSimilarity`: fuel-type match. -/
def fuelScore (incident : Incident) (iap : IAPData) : ℚ :=
  if truthyStr iap.conditions.fuel then
    let f := iap.conditions.fuel.getD ""
    if f = incident.fuelProxy then 25
    else if ((FUEL_COMPATIBILITY_MAP incident.fuelProxy).getD []).contains f
      then 12
    else 0
  else 0

/-- Rubric block 2a of `calculateIAPSimilarity`: wind-speed closeness. -/
def windScore (weather : Weather) (iap : IAPData) : ℚ :=
  match iap.conditions.weather with
  | none => 0
  | some w =>
    match w.windSpeedMps with
    | none => 0
    | some ws =>
      let windDiff := |weather.windSpeedMps - ws|
      if windDiff ≤ 3 then 15
      else if windDiff ≤ 7 then 8
      else if windDiff ≤ 12 then 3
      else 0

/-- Rubric block 2b of `calculateIAPSimilarity`: humidity closeness. -/
def humidityScore (weather : Weather) (iap : IAPData) : ℚ :=
  match iap.conditions.weather with
  | none => 0
  | some w =>
    match w.humidityPct with
    | none => 0
    | some hp =>
      let humidityDiff := |weather.humidityPct - hp|
      if humidityDiff ≤ 10 then 10
      else if humidityDiff ≤ 20 then 5
      else if humidityDiff ≤ 30 then 2
      else 0

/-- Rubric block 3 of `calculateIAPSimilarity`: incident-scale similarity. -/
def scaleScore (incident : Incident) (iap : IAPData) : ℚ :=
  if truthyNum iap.conditions.acres then
    let acres := iap.conditions.acres.getD 0
    let radiusKm := incident.perimeter.radiusMeters / 1000
    let estimatedAcres := piJS * radiusKm * radiusKm * 247.105
    let sizeRatio := min estimatedAcres acres / max estimatedAcres acres
    sizeRatio * 15
  else 7

/-- Rubric block 4 of `calculateIAPSimilarity`: relevant-section
availability. -/
def sectionScore (cardType : CardType) (iap : IAPData) : ℚ :=
  if iap.sections.any (fun s => (RELEVANT_SECTIONS cardType).contains s.type)
    then 25
  else if 0 < iap.sections.length then 10
  else 0

/-- Rubric block 5 of `calculateIAPSimilarity`: terrain similarity for
tactics cards. -/
def terrainScore (cardType : CardType) (iap : IAPData)
    (terrain : Option TerrainMetrics) : ℚ :=
  if cardType = CardType.tactics then
    match terrain with
    | some tm =>
      if truthyStr iap.rawText then
        Terrain.calculateTerrainSimilarity tm (iap.rawText.getD "") / 100 * 20
      else 0
    | none => 0
  else 0

/-- Model of `calculateIAPSimilarity`: the rounded sum of the five rubric
blocks. -/
def calculateIAPSimilarity (incident : Incident) (weather : Weather)
    (cardType : CardType) (iap : IAPData) (terrain : Option TerrainMetrics) :
    ℤ :=
  roundJS (fuelScore incident iap + windScore weather iap +
    humidityScore weather iap + scaleScore incident iap +
    sectionScore cardType iap + terrainScore cardType iap terrain)

/-! ### Snippet extraction (src/lib/iap/snippet-extractor.ts) -/

/-- Sentence terminators of the regex `[^.!?]+[.!?]+`. -/
def isTermChar (c : Char) : Bool := c == '.' || c == '!' || c == '?'

/-- State machine equivalent of the global regex match
`content.match(/[^.!?]+[.!?]+/g) || []`: maximal runs of non-terminator
characters followed by at least one terminator. -/
def sentencesGo : List Char → List Char → Bool → List String
  | [], cur, seenTerm =>
    if seenTerm then [String.mk cur.reverse] else []
  | c :: rest, cur, seenTerm =>
    if isTermChar c then
      if cur.isEmpty then sentencesGo rest [] false
      else sentencesGo rest (c :: cur) true
    else
      if seenTerm then String.mk cur.reverse :: sentencesGo rest [c] false
      else sentencesGo rest (c :: cur) false

/-- Sentence split of a string per the source's sentence regex. -/
def matchSentences (s : String) : List String := sentencesGo s.toList [] false

/-- Model of `array.join(' ').trim()`. -/
def joinSpace (l : List String) : String := trimJS (String.intercalate " " l)

/-- Model of the 300-character truncation with ellipsis marker. -/
def truncate300 (s : String) : String :=
  if 300 < s.length then (s.toList.take 297).asString ++ "..." else s

/-- Model of `extractTacticalSnippet`. -/
def extractTacticalSnippet (sec : IAPSection) (cardType : CardType)
    (iap : IAPData) : String :=
  let content := sec.content
  let rawText := if truthyStr iap.rawText then iap.rawText.getD "" else content
  let focusKeywords := FOCUS_KEYWORDS cardType
  let sentences := matchSentences content
  let relevant1 := sentences.filter
    (fun s => focusKeywords.any (fun kw => includesJS (lowerStr s) kw))
  let relevant2 :=
    if relevant1.length = 0 ∧ 0 < iap.tacticalLessons.length then
      iap.tacticalLessons.filter
        (fun lesson => focusKeywords.any (fun kw => includesJS (lowerStr lesson) kw))
    else relevant1
  let relevant3 :=
    if relevant2.length = 0 ∧ rawText ≠ "" then
      ((matchSentences rawText).filter
        (fun s => focusKeywords.any (fun kw => includesJS (lowerStr s) kw))).take 3
    else relevant2
  if 0 < relevant3.length then truncate300 (joinSpace (relevant3.take 2))
  else truncate300 (joinSpace (sentences.take 2))

/-! ### Reasoning bullets (src/lib/iap/reasoning.ts) -/

/-- Model of the case-insensitive regex test
`/steep|slope|ridge|terrain|uphill|downhill/i` on the raw text. -/
def hasTerrainRefs (text : String) : Bool :=
  ["steep", "slope", "ridge", "terrain", "uphill", "downhill"].any
    (fun w => includesJS (lowerStr text) w)

/-- Model of `generateReasoning`.  The sequential `reasoning.push` calls of
the source become list concatenation in push order; the final guard appends
the single generic relevance bullet when fewer than two bullets were
produced, and the result is truncated to three entries. -/
def generateReasoning (incident : Incident) (weather : Weather)
    (iap : IAPData) (score : ℤ) (cardType : CardType) : List String :=
  let categoryBullets : List String :=
    match cardType with
    | .evacuation =>
      match iap.conditions.weather with
      | none => []
      | some w =>
        (match w.windSpeedMps with
         | some ws =>
           if |weather.windSpeedMps - ws| ≤ 5 then
             ["Similar wind conditions: " ++ fmtNum ws ++
               " m/s affected containment"]
           else []
         | none => []) ++
        (match w.humidityPct with
         | some hp =>
           if hp < 25 then
             ["Low humidity (" ++ fmtNum hp ++ "%) drove rapid spread"]
           else []
         | none => [])
    | .resources =>
      (if truthyNum iap.conditions.acres then
        [fmtNum (iap.conditions.acres.getD 0) ++
          " acre fire - resource patterns applicable"]
      else []) ++
      (if iap.sections.any (fun s => s.type = "ICS-203" ∨ s.type = "ICS-204")
        then ["Documented resource assignments and effectiveness"]
      else [])
    | .tactics =>
      (if truthyStr iap.location.county then
        ["Similar California terrain in " ++ iap.location.county.getD "" ++
          " County"]
      else []) ++
      (if iap.sections.any (fun s => s.type = "ICS-204") then
        ["Terrain-based tactical assignments documented"]
      else []) ++
      (if truthyStr iap.rawText ∧ hasTerrainRefs (iap.rawText.getD "") then
        ["IAP describes similar terrain features"]
      else [])
  let fuelBullets : List String :=
    if iap.conditions.fuel = some incident.fuelProxy then
      ["Exact fuel type match: " ++ incident.fuelProxy]
    else if truthyStr iap.conditions.fuel ∧
        ((FUEL_COMPATIBILITY_MAP incident.fuelProxy).getD []).contains
          (iap.conditions.fuel.getD "") then
      ["Compatible fuel: " ++ iap.conditions.fuel.getD ""]
    else []
  let reasoning := categoryBullets ++ fuelBullets
  let padded :=
    if reasoning.length < 2 then
      reasoning ++ ["Overall relevance: " ++ toString score ++ "%"]
    else reasoning
  padded.take 3

/-! ### Matcher (src/lib/iap/matcher.ts)

The static dataset returned by `loadIAPData()` is supplied as the explicit
parameter `iapData`. -/

/-- Model of `findRelevantIAPs`:  score every IAP, drop those under the
threshold, sort descending by score (JavaScript's stable sort with
comparator `(a, b) => b.score - a.score`), and build an insight for each of
the top three surviving records, skipping a record whose section lookup
yields no section at all. -/
def findRelevantIAPs (iapData : List IAPData) (incident : Incident)
    (weather : Weather) (cardType : CardType)
    (terrain : Option TerrainMetrics) : List IAPInsight :=
  if iapData.length = 0 then []
  else
    let scored := iapData.map
      (fun iap => (iap, calculateIAPSimilarity incident weather cardType iap terrain))
    let filtered := sortJS (fun a b => decide (b.2 ≤ a.2))
      (scored.filter (fun s => MIN_IAP_SCORE ≤ s.2))
    (filtered.take MAX_IAP_INSIGHTS).filterMap (fun p =>
      let iap := p.1
      let relevantSectionTypes := RELEVANT_SECTIONS cardType
      match (iap.sections.find?
          (fun s => relevantSectionTypes.contains s.type)).orElse
          (fun _ => iap.sections.head?) with
      | none => none
      | some relevantSection =>
        some { iapId := iap.id
               iapName := iap.incidentName
               relevanceScore := p.2
               tacticalSnippet := extractTacticalSnippet relevantSection cardType iap
               sectionType := relevantSection.type
               reasoning := generateReasoning incident weather iap p.2 cardType })

end IAP

/-! ## Perimeter processor (src/lib/perimeter-processor.ts)

The turf.js geometry kernel (area, centroid, ring length, bearing and
great-circle distance, all transcendental) plus `Math.sqrt` are abstracted
into the `GeomOps` parameter record; every theorem about this module
quantifies over the kernel.  `turf.polygon` throws on a ring with fewer
than four positions or one that is not closed; that validation is exact and
is embedded directly, with the thrown exception (caught by the source's
`try/catch`) represented by `none`. -/

namespace Perimeter

/-- Abstract turf.js / `Math` geometry kernel used by the processor. -/
structure GeomOps where
  area : List (List (ℚ × ℚ)) → ℚ
  centroid : List (List (ℚ × ℚ)) → ℚ × ℚ
  ringLength : List (List (ℚ × ℚ)) → ℚ
  bearing : ℚ × ℚ → ℚ × ℚ → ℚ
  distanceKm : ℚ × ℚ → ℚ × ℚ → ℚ
  msqrt : ℚ → ℚ

/-- Raw geometry of a fire feature (rings hold `[longitude, latitude]`
positions). -/
inductive RawGeometry where
  | poly (rings : List (List (ℚ × ℚ)))
  | multi (polys : List (List (List (ℚ × ℚ))))
deriving DecidableEq

/-- Properties of a raw fire feature; fields the source tests for presence
or truthiness are `Option`s. -/
structure RawFireProps where
  OBJECTID : ℤ
  YEAR : ℤ
  FIRE_NAME : Option String
  ALARM_DATE : Option ℚ
  CONT_DATE : Option ℚ
  GIS_ACRES : Option ℚ
  IRWINID : Option String
deriving DecidableEq

/-- Raw fire feature from query.json. -/
structure RawFireFeature where
  id : ℤ
  properties : RawFireProps
  geometry : RawGeometry
deriving DecidableEq

/-- Eight-direction extent map plus the dominant bearing in degrees. -/
structure DirectionalExtent where
  N : ℚ
  E : ℚ
  S : ℚ
  W : ℚ
  NE : ℚ
  SE : ℚ
  SW : ℚ
  NW : ℚ
  dominantDirection : ℚ
deriving DecidableEq

/-- Normalized geometry stored on a processed perimeter. -/
structure PerimeterGeometry where
  gtype : String
  coordinates : List (List (ℚ × ℚ))
  centroid : ℚ × ℚ
deriving DecidableEq

/-- Temporal fields of a processed perimeter.  The source renders the two
timestamps as ISO-8601 strings via `Date.toISOString`; the calendar
rendering is abstracted as the default numeric rendering (no theorem
depends on the text). -/
structure PerimeterTemporal where
  alarmDate : String
  containmentDate : String
  durationHours : ℚ
deriving DecidableEq

/-- Metric fields of a processed perimeter. -/
structure PerimeterMetrics where
  totalAcres : ℚ
  perimeterKm : ℚ
  aspectRatio : ℚ
  compactness : ℚ
deriving DecidableEq

/-- Growth-rate fields of a processed perimeter. -/
structure GrowthRate where
  acresPerHour : ℚ
  estimatedSpreadRateKmH : ℚ
deriving DecidableEq

/-- Processed perimeter record. -/
structure ProcessedPerimeter where
  fireId : String
  fireName : String
  geometry : PerimeterGeometry
  temporal : PerimeterTemporal
  metrics : PerimeterMetrics
  directionalExtent : DirectionalExtent
  growthRate : GrowthRate
deriving DecidableEq

/-- Model of `timestampToISO`; the calendar formatting is abstracted. -/
def timestampToISO (timestamp : ℚ) : String := fmtNum timestamp

/-- Model of `calculateDuration` (milliseconds to hours). -/
def calculateDuration (alarmDate contDate : ℚ) : ℚ :=
  (contDate - alarmDate) / (1000 * 60 * 60)

/-- Validation performed by `turf.polygon` on one ring: at least four
positions and first equals last. -/
def ringValid (r : List (ℚ × ℚ)) : Bool :=
  decide (4 ≤ r.length) && (r.head? == r.getLast?)

/-- Validation performed by `turf.polygon` on a ring list. -/
def polyRingsValid (rings : List (List (ℚ × ℚ))) : Bool := rings.all ringValid

/-- Model of `normalizeGeometry`: a polygon passes through unchanged; a
multipolygon selects its first component of maximal `turf.area`.  `none`
records the exception paths (an invalid component ring, or an empty
component list, where `Math.max()` is `-Infinity`, `indexOf` yields `-1`
and the subsequent `turf.polygon(undefined)` throws). -/
def normalizeGeometry (ops : GeomOps) :
    RawGeometry → Option (List (List (ℚ × ℚ)))
  | .poly rings => some rings
  | .multi polys =>
    if polys.any (fun p => !(polyRingsValid p)) then none
    else
      match polys with
      | [] => none
      | p0 :: rest =>
        let maxArea := (rest.map ops.area).foldl max (ops.area p0)
        (p0 :: rest).find? (fun p => ops.area p == maxArea)

/-- Model of `acresToKm2`. -/
def acresToKm2 (acres : ℚ) : ℚ := acres * 0.00404686

/-- Model of `calculateCompactness` (isoperimetric quotient, clipped to 0
on a zero perimeter). -/
def calculateCompactness (areaKm2 perimeterKm : ℚ) : ℚ :=
  if perimeterKm = 0 then 0
  else 4 * piJS * areaKm2 / (perimeterKm * perimeterKm)

/-- Model of `estimateSpreadRate` (`Math.sqrt` comes from the kernel). -/
def estimateSpreadRate (ops : GeomOps) (acres durationHours : ℚ) : ℚ :=
  if durationHours = 0 then 0
  else ops.msqrt (acresToKm2 acres / piJS) / durationHours

/-- Inner loop of `calculateDirectionalExtent` for one target bearing:
maximal kernel distance from the centroid to a vertex whose bearing lies
within 22.5 degrees of the target. -/
def extentInDir (ops : GeomOps) (centroid : ℚ × ℚ)
    (coords : List (ℚ × ℚ)) (dirBearing : ℚ) : ℚ :=
  coords.foldl (fun maxDistInDir coord =>
    let bearing := ops.bearing centroid coord
    let normalizedBearing := jsMod (bearing + 360) 360
    let angleDiff :=
      min (min |normalizedBearing - dirBearing|
             |normalizedBearing - dirBearing + 360|)
        |normalizedBearing - dirBearing - 360|
    if angleDiff ≤ 22.5 then max maxDistInDir (ops.distanceKm centroid coord)
    else maxDistInDir) 0

/-- Model of `calculateDirectionalExtent`: the eight extents, and the
dominant bearing tracked in the source's enumeration order
N, NE, E, SE, S, SW, W, NW with a strict-greater update. -/
def calculateDirectionalExtent (ops : GeomOps) (coords : List (ℚ × ℚ))
    (centroid : ℚ × ℚ) : DirectionalExtent :=
  let eN := extentInDir ops centroid coords 0
  let eNE := extentInDir ops centroid coords 45
  let eE := extentInDir ops centroid coords 90
  let eSE := extentInDir ops centroid coords 135
  let eS := extentInDir ops centroid coords 180
  let eSW := extentInDir ops centroid coords 225
  let eW := extentInDir ops centroid coords 270
  let eNW := extentInDir ops centroid coords 315
  let ordered : List (ℚ × ℚ) :=
    [(eN, 0), (eNE, 45), (eE, 90), (eSE, 135),
     (eS, 180), (eSW, 225), (eW, 270), (eNW, 315)]
  let dom := (ordered.foldl
    (fun (acc : ℚ × ℚ) p => if acc.1 < p.1 then p else acc) (0, 0)).2
  { N := eN, E := eE, S := eS, W := eW,
    NE := eNE, SE := eSE, SW := eSW, NW := eNW,
    dominantDirection := dom }

/-- Model of `calculateAspectRatio`: ratio of the largest to the smallest
strictly positive extent, with the source's fallbacks. -/
def calculateAspectRatio (de : DirectionalExtent) : ℚ :=
  let extents :=
    [de.N, de.E, de.S, de.W, de.NE, de.SE, de.SW, de.NW].filter
      (fun e => 0 < e)
  match extents with
  | [] => 1
  | e :: es =>
    let maxExtent := es.foldl max e
    let minExtent := es.foldl min e
    if 0 < minExtent then maxExtent / minExtent else maxExtent

/-- Model of `processFirePerimeter`: field validation, the duration guard,
geometry normalization and the derived metrics; `none` covers both the
explicit skip returns and the caught geometry exceptions. -/
def processFirePerimeter (ops : GeomOps) (feature : RawFireFeature) :
    Option ProcessedPerimeter :=
  let props := feature.properties
  if !(truthyStr props.FIRE_NAME) || !(truthyNum props.ALARM_DATE) ||
      !(truthyNum props.CONT_DATE) || props.GIS_ACRES.isNone then none
  else
    let alarmDate := props.ALARM_DATE.getD 0
    let contDate := props.CONT_DATE.getD 0
    let gisAcres := props.GIS_ACRES.getD 0
    let durationHours := calculateDuration alarmDate contDate
    if durationHours ≤ 0 ∨ 8760 < durationHours then none
    else
      match normalizeGeometry ops feature.geometry with
      | none => none
      | some rings =>
        if !(polyRingsValid rings) then none
        else
          match rings with
          | [] => none
          | ring0 :: _ =>
            let centroid := ops.centroid rings
            let perimeterKm := ops.ringLength rings
            let areaKm2 := acresToKm2 gisAcres
            let directionalExtent := calculateDirectionalExtent ops ring0 centroid
            let aspectRatio := calculateAspectRatio directionalExtent
            let compactness := calculateCompactness areaKm2 perimeterKm
            let acresPerHour := gisAcres / durationHours
            let estimatedSpreadRateKmH := estimateSpreadRate ops gisAcres durationHours
            let fireId :=
              if truthyStr props.IRWINID then props.IRWINID.getD ""
              else "cal_fire_" ++ toString props.YEAR ++ "_" ++
                toString props.OBJECTID
            some
              { fireId := fireId
                fireName := props.FIRE_NAME.getD ""
                geometry :=
                  { gtype := "Polygon", coordinates := rings, centroid := centroid }
                temporal :=
                  { alarmDate := timestampToISO alarmDate
                    containmentDate := timestampToISO contDate
                    durationHours := durationHours }
                metrics :=
                  { totalAcres := gisAcres
                    perimeterKm := perimeterKm
                    aspectRatio := aspectRatio
                    compactness := compactness }
                directionalExtent := directionalExtent
                growthRate :=
                  { acresPerHour := acresPerHour
                    estimatedSpreadRateKmH := estimatedSpreadRateKmH } }

/-- Batch statistics of `processAllPerimeters`. -/
structure BatchStats where
  total : ℕ
  successful : ℕ
  failed : ℕ
  skipped : ℕ
deriving DecidableEq

/-- Batch result of `processAllPerimeters`. -/
structure BatchResult where
  processed : List ProcessedPerimeter
  stats : BatchStats
deriving DecidableEq

/-- Recursive core of the batch loop: surviving records in input order,
then the failed count, then the skipped count.  A rejected feature is
classified as skipped exactly when its name, alarm or containment date is
falsy, mirroring the source's re-check. -/
def processBatchGo (ops : GeomOps) :
    List RawFireFeature → List ProcessedPerimeter × ℕ × ℕ
  | [] => ([], 0, 0)
  | f :: rest =>
    let acc := processBatchGo ops rest
    match processFirePerimeter ops f with
    | some p => (p :: acc.1, acc.2.1, acc.2.2)
    | none =>
      if !(truthyStr f.properties.FIRE_NAME) ||
          !(truthyNum f.properties.ALARM_DATE) ||
          !(truthyNum f.properties.CONT_DATE) then
        (acc.1, acc.2.1, acc.2.2 + 1)
      else (acc.1, acc.2.1 + 1, acc.2.2)

/-- Model of `processAllPerimeters`. -/
def processAllPerimeters (ops : GeomOps) (features : List RawFireFeature) :
    BatchResult :=
  let acc := processBatchGo ops features
  { processed := acc.1
    stats :=
      { total := features.length
        successful := acc.1.length
        failed := acc.2.1
        skipped := acc.2.2 } }

end Perimeter

/-! ## Spread index and predictor (src/lib/directional-spread.ts)

The haversine `calculateDistance` is transcendental and is abstracted as
the explicit parameter `dist` (taking the two latitude/longitude pairs in
the source's argument order); the lazily built index is represented by its
flat collection `all`, with the grid map `byLocation.get(key)` recovered as
the in-order filter of `all` by grid key — the map groups exactly those
entries, in insertion order.  Grid keys are the pairs of rounded-down
half-degree coordinates; the source renders them with `toFixed(1)`, which
is injective on such multiples, so pair equality coincides with the
source's string-key equality. -/

namespace Spread

/-- Bounding box of a historical fire. -/
structure SpreadBounds where
  north : ℚ
  south : ℚ
  east : ℚ
  west : ℚ
  centerLat : ℚ
  centerLon : ℚ
deriving DecidableEq

/-- Four-direction extents in km. -/
structure SpreadExtents where
  north : ℚ
  south : ℚ
  east : ℚ
  west : ℚ
deriving DecidableEq

/-- Four-direction expansion rates plus their average. -/
structure SpreadRates where
  north : ℚ
  south : ℚ
  east : ℚ
  west : ℚ
  avgRate : ℚ
deriving DecidableEq

/-- Shape characteristics. -/
structure SpreadShape where
  aspectRatio : ℚ
  dominantDirection : String
  elongation : ℚ
deriving DecidableEq

/-- Directional spread analysis of one historical fire. -/
structure DirectionalSpread where
  fireId : String
  fireName : String
  year : ℤ
  acres : ℚ
  durationHours : ℚ
  bounds : SpreadBounds
  extents : SpreadExtents
  rates : SpreadRates
  shape : SpreadShape
deriving DecidableEq

/-- Model of `getGridKey` (half-degree grid cell of a coordinate pair). -/
def gridKey (lat lon : ℚ) : ℚ × ℚ :=
  (⌊lat / (1 / 2)⌋ * (1 / 2), ⌊lon / (1 / 2)⌋ * (1 / 2))

/-- Integer interval `[a, b]` as a list, in increasing order, modelling the
double `for` loop over cell offsets (empty when `b < a`). -/
def intRangeIncl (a b : ℤ) : List ℤ :=
  (List.range (b - a + 1).toNat).map (fun i => a + i)

/-- First-occurrence deduplication, modelling insertion into a JavaScript
`Set`. -/
def dedupGo {α : Type} [DecidableEq α] (seen : List α) : List α → List α
  | [] => []
  | x :: xs =>
    if x ∈ seen then dedupGo seen xs else x :: dedupGo (x :: seen) xs

/-- Model of `findFiresNearLocation` over the index's flat collection. -/
def findFiresNearLocation (dist : ℚ → ℚ → ℚ → ℚ → ℚ)
    (all : List DirectionalSpread) (lat lon radiusKm : ℚ) (limit : ℕ) :
    List DirectionalSpread :=
  let gridSize : ℚ := 1 / 2
  let cellRadius : ℤ := ⌈radiusKm / 50⌉
  let offsets := intRangeIncl (-cellRadius) cellRadius
  let gridKeys := dedupGo []
    (offsets.flatMap (fun dLat => offsets.map (fun dLon =>
      let checkLat := ⌊lat / gridSize⌋ * gridSize + (dLat : ℚ) * gridSize
      let checkLon := ⌊lon / gridSize⌋ * gridSize + (dLon : ℚ) * gridSize
      gridKey checkLat checkLon)))
  let candidates := gridKeys.flatMap (fun key =>
    all.filter (fun f => gridKey f.bounds.centerLat f.bounds.centerLon = key))
  let nearby := (candidates.map (fun fire =>
      (fire, dist lat lon fire.bounds.centerLat fire.bounds.centerLon))).filter
    (fun item => item.2 ≤ radiusKm)
  let sorted := sortJS (fun a b => decide (a.2 ≤ b.2)) nearby
  (sorted.take limit).map (fun item => item.1)

/-- Model of `findSimilarFires`: nearby fires re-sorted by descending year
(stable), truncated to the limit. -/
def findSimilarFires (dist : ℚ → ℚ → ℚ → ℚ → ℚ)
    (all : List DirectionalSpread) (incident : Incident) (radiusKm : ℚ)
    (limit : ℕ) : List DirectionalSpread :=
  let nearby := findFiresNearLocation dist all incident.lat incident.lon
    radiusKm (limit * 2)
  (sortJS (fun a b => decide (b.year ≤ a.year)) nearby).take limit

/-- Aggregate statistics of `calculateSpreadStatistics`. -/
structure SpreadStatistics where
  avgNorthRate : ℚ
  avgSouthRate : ℚ
  avgEastRate : ℚ
  avgWestRate : ℚ
  dominantDirection : String
  avgElongation : ℚ
deriving DecidableEq

/-- Model of `calculateSpreadStatistics`.  The direction-count `Map` is
iterated in insertion order, i.e. in order of first occurrence, with a
strict-greater update starting from count 0. -/
def calculateSpreadStatistics (fires : List DirectionalSpread) :
    SpreadStatistics :=
  if fires.length = 0 then
    { avgNorthRate := 0, avgSouthRate := 0, avgEastRate := 0,
      avgWestRate := 0, dominantDirection := "UNKNOWN", avgElongation := 1 }
  else
    let n : ℚ := fires.length
    let dirList := fires.map (fun f => f.shape.dominantDirection)
    let best := (dedupGo [] dirList).foldl
      (fun (acc : String × ℕ) dir =>
        let count := dirList.count dir
        if acc.2 < count then (dir, count) else acc) ("UNIFORM", 0)
    { avgNorthRate := (fires.map (fun f => f.rates.north)).sum / n
      avgSouthRate := (fires.map (fun f => f.rates.south)).sum / n
      avgEastRate := (fires.map (fun f => f.rates.east)).sum / n
      avgWestRate := (fires.map (fun f => f.rates.west)).sum / n
      dominantDirection := best.1
      avgElongation := (fires.map (fun f => f.shape.elongation)).sum / n }

/-- Sixteen-point compass table of `getCardinalDirection`. -/
def directions16 : List String :=
  ["N", "NNE", "NE", "ENE", "E", "ESE", "SE", "SSE",
   "S", "SSW", "SW", "WSW", "W", "WNW", "NW", "NNW"]

/-- Model of `getCardinalDirection` (same out-of-range caveat as the
eight-point table: a negative JavaScript index would read `undefined`,
represented here by the default entry and exercised by no theorem). -/
def getCardinalDirection (degrees : ℚ) : String :=
  let index : ℤ := (roundJS (degrees / (45 / 2))).tmod 16
  directions16.getD index.toNat "N"

/-- Expected per-direction rates of a prediction. -/
structure ExpectedRates where
  north : ℚ
  south : ℚ
  east : ℚ
  west : ℚ
deriving DecidableEq

/-- Prediction payload of `predictSpreadPattern`. -/
structure SpreadPrediction where
  likelyDirection : String
  expectedRates : ExpectedRates
  confidence : String
  reasoning : List String
deriving DecidableEq

/-- Full result of `predictSpreadPattern`. -/
structure PredictResult where
  similarFires : List DirectionalSpread
  prediction : SpreadPrediction
deriving DecidableEq

/-- Model of `predictSpreadPattern`. -/
def predictSpreadPattern (dist : ℚ → ℚ → ℚ → ℚ → ℚ)
    (all : List DirectionalSpread) (incident : Incident) (windDirDeg : ℚ) :
    PredictResult :=
  let similarFires := findSimilarFires dist all incident 100 15
  if similarFires.length = 0 then
    { similarFires := []
      prediction :=
        { likelyDirection := "UNKNOWN"
          expectedRates := { north := 0, south := 0, east := 0, west := 0 }
          confidence := "low"
          reasoning := ["No similar historical fires found in the area"] } }
  else
    let stats := calculateSpreadStatistics similarFires
    let windDirCardinal := getCardinalDirection windDirDeg
    let reasoning : List String :=
      ["Found " ++ toString similarFires.length ++ " similar fires within 100km",
       "Historical dominant direction: " ++ stats.dominantDirection,
       "Current wind from " ++ windDirCardinal ++ " (" ++ fmtNum windDirDeg ++ "Â°)",
       "Avg expansion rates: N " ++ fmtNum stats.avgNorthRate ++ " km/h, S " ++
         fmtNum stats.avgSouthRate ++ " km/h, E " ++ fmtNum stats.avgEastRate ++
         " km/h, W " ++ fmtNum stats.avgWestRate ++ " km/h"]
    let confidence :=
      if 10 ≤ similarFires.length then "high"
      else if 5 ≤ similarFires.length then "medium"
      else "low"
    { similarFires := similarFires
      prediction :=
        { likelyDirection := stats.dominantDirection
          expectedRates :=
            { north := stats.avgNorthRate, south := stats.avgSouthRate,
              east := stats.avgEastRate, west := stats.avgWestRate }
          confidence := confidence
          reasoning := reasoning } }

end Spread

/-! ## Concrete fixtures used by witnesses and counterexamples -/

namespace Fixtures

/-- Geometry kernel instance used to instantiate kernel-quantified
theorems on concrete inputs.  Its values agree with turf.js on the
degenerate situations the fixtures exercise (the fixture conclusions
below are independent of the kernel: they are reached either before any
kernel call or with a zero numerator). -/
def zeroGeom : Perimeter.GeomOps :=
  { area := fun _ => 0
    centroid := fun _ => (0, 0)
    ringLength := fun _ => 0
    bearing := fun _ _ => 0
    distanceKm := fun _ _ => 0
    msqrt := fun _ => 0 }

/-- Feature whose name, alarm and containment date are present but whose
computed duration is 0 hours (alarm equals containment): rejected by the
duration guard. -/
def durInvalidFeature : Perimeter.RawFireFeature :=
  { id := 1
    properties :=
      { OBJECTID := 1, YEAR := 2020, FIRE_NAME := some "TEST",
        ALARM_DATE := some 1000, CONT_DATE := some 1000,
        GIS_ACRES := some 50, IRWINID := none }
    geometry := .poly [[(0, 0), (0, 1), (1, 1), (0, 0)]] }

/-- Feature whose acreage attribute is absent: rejected by the
required-field validation. -/
def acresMissingFeature : Perimeter.RawFireFeature :=
  { id := 2
    properties :=
      { OBJECTID := 2, YEAR := 2020, FIRE_NAME := some "TEST2",
        ALARM_DATE := some 1000, CONT_DATE := some 3601000,
        GIS_ACRES := none, IRWINID := none }
    geometry := .poly [[(0, 0), (0, 1), (1, 1), (0, 0)]] }

/-- Distance kernel constant 0, the haversine restricted to coincident
points; used only to instantiate kernel-quantified theorems. -/
def distZ : ℚ → ℚ → ℚ → ℚ → ℚ := fun _ _ _ _ => 0

/-- Minimal incident fixture. -/
def plainIncident : Incident :=
  { name := "NOW", lat := 0, lon := 0, fuelProxy := "grass",
    perimeter := { radiusMeters := 1000 } }

/-- Historical fire fixture centred at the origin. -/
def fire0 : Spread.DirectionalSpread :=
  { fireId := "F0", fireName := "ALPHA", year := 2020, acres := 100,
    durationHours := 10
    bounds := { north := 0, south := 0, east := 0, west := 0,
                centerLat := 0, centerLon := 0 }
    extents := { north := 0, south := 0, east := 0, west := 0 }
    rates := { north := 0, south := 0, east := 0, west := 0, avgRate := 0 }
    shape := { aspectRatio := 1, dominantDirection := "N", elongation := 1 } }

/-- Terrain fixture: steep south-facing slope near a ridgeline. -/
def tmC2 : TerrainMetrics :=
  { elevation := 100, slope := 30, slopeAngle := 0, aspect := "S",
    aspectDegrees := 180, nearbyRidgeline := true, ridgelineDistKm := some 1,
    ridgelineDirection := some "N", terrainType := "steep", notes := [] }

/-- IAP fixture that maxes every rubric term reachable with this terrain:
exact fuel match, identical wind and humidity, recorded acreage equal to
the incident's estimated acreage, a tactics-relevant section, and raw text
hitting all four terrain-similarity signals. -/
def iapC2 : IAPData :=
  { id := "iap_one", incidentName := "HIST", location := { county := none },
    conditions :=
      { fuel := some "brush",
        weather := some { windSpeedMps := some 10, humidityPct := some 20 },
        acres := some (piJS * 247.105) },
    sections := [{ type := "ICS-202", content := "" }],
    tacticalLessons := [], rawText := some "steep ridge terrain s-facing." }

/-- Incident fixture matched against `iapC2`. -/
def incC2 : Incident :=
  { name := "CUR", lat := 0, lon := 0, fuelProxy := "brush",
    perimeter := { radiusMeters := 1000 } }

/-- Weather fixture identical to the historical conditions of `iapC2`. -/
def wC2 : Weather :=
  { windSpeedMps := 10, humidityPct := 20, windDirDeg := 0,
    temperatureC := 20 }

/-- IAP fixture scoring 82 against `plainIncident` and `wC2` on a
resources card: exact fuel match, identical weather, no recorded acreage,
and a resources-relevant section. -/
def iapRes : IAPData :=
  { id := "iap_r", incidentName := "RES", location := { county := none },
    conditions :=
      { fuel := some "grass",
        weather := some { windSpeedMps := some 10, humidityPct := some 20 },
        acres := none },
    sections := [{ type := "ICS-203", content := "" }],
    tacticalLessons := [], rawText := none }

/-- The insight produced for `iapRes` on a resources card. -/
def insRes : IAPInsight :=
  { iapId := "iap_r", iapName := "RES", relevanceScore := 82,
    tacticalSnippet := "", sectionType := "ICS-203",
    reasoning := ["Documented resource assignments and effectiveness",
                  "Exact fuel type match: grass"] }

/-- Accepted feature with a valid unit-square polygon but a recorded
acreage of 0 acres: the numerator of the compactness quotient is 0, so the
computed compactness is 0 for every geometry kernel. -/
def sqAcresZeroFeature : Perimeter.RawFireFeature :=
  { id := 3
    properties :=
      { OBJECTID := 3, YEAR := 2020, FIRE_NAME := some "SQUARE",
        ALARM_DATE := some 1000, CONT_DATE := some 36001000,
        GIS_ACRES := some 0, IRWINID := none }
    geometry := .poly [[(0, 0), (0, 1), (1, 1), (1, 0), (0, 0)]] }

end Fixtures

/-! ## Claim theorems -/

/-- Helper: a left fold by `min` is bounded by its starting value. -/
theorem foldl_min_le_init (es : List ℚ) (e : ℚ) : es.foldl min e ≤ e := by
  induction es generalizing e with
  | nil => simp
  | cons x xs ih =>
    simpa using le_trans (ih (min e x)) (min_le_left e x)

/-- Helper: a left fold by `max` dominates its starting value. -/
theorem init_le_foldl_max (es : List ℚ) (e : ℚ) : e ≤ es.foldl max e := by
  induction es generalizing e with
  | nil => simp
  | cons x xs ih =>
    simpa using le_trans (le_max_left e x) (ih (max e x))

/-- Helper: a left fold by `min` over positives from a positive start is
positive. -/
theorem foldl_min_pos (es : List ℚ) (e : ℚ) (he : 0 < e)
    (hes : ∀ x ∈ es, 0 < x) : 0 < es.foldl min e := by
  induction es generalizing e with
  | nil => simpa using he
  | cons x xs ih =>
    simp only [List.foldl_cons]
    exact ih (min e x) (lt_min he (hes x (by simp)))
      (fun y hy => hes y (by simp [hy]))

/-- Helper: the aspect ratio computed from any directional-extent record is
at least 1: the source filters to strictly positive extents, so the
minimum-positive-extent branch divides a larger by a smaller positive
value, and both fallbacks return at least 1. -/
theorem calculateAspectRatio_ge_one (de : Perimeter.DirectionalExtent) :
    1 ≤ Perimeter.calculateAspectRatio de := by
  unfold Perimeter.calculateAspectRatio
  dsimp only
  rcases hf : List.filter (fun e => decide (0 < e))
      [de.N, de.E, de.S, de.W, de.NE, de.SE, de.SW, de.NW] with _ | ⟨e, es⟩
  · norm_num
  · dsimp only
    have hmem : ∀ x ∈ e :: es, 0 < x := by
      intro x hx
      have hx2 : x ∈ List.filter (fun e => decide (0 < e))
          [de.N, de.E, de.S, de.W, de.NE, de.SE, de.SW, de.NW] := hf ▸ hx
      simpa using List.of_mem_filter hx2
    have hmin : 0 < es.foldl min e :=
      foldl_min_pos es e (hmem e (by simp)) (fun x hx => hmem x (by simp [hx]))
    rw [if_pos hmin]
    exact (one_le_div hmin).mpr
      (le_trans (foldl_min_le_init es e) (init_le_foldl_max es e))

/-- Helper: compactness of a nonnegative area is nonnegative for every
perimeter value. -/
theorem calculateCompactness_nonneg (areaKm2 perimeterKm : ℚ)
    (h : 0 ≤ areaKm2) :
    0 ≤ Perimeter.calculateCompactness areaKm2 perimeterKm := by
  unfold Perimeter.calculateCompactness
  split
  · exact le_refl 0
  · apply div_nonneg
    · have hpi := piJS_pos
      nlinarith
    · exact mul_self_nonneg _

/-- C3 (amended): for every geometry kernel, every accepted raw record
with nonnegative recorded acreage has computed aspect ratio at least 1 and
computed compactness at least 0; the compactness is not confined to the
interval (0, 1] (see the counterexample). -/
theorem processFirePerimeter_shape_bounds (ops : Perimeter.GeomOps)
    (f : Perimeter.RawFireFeature) (p : Perimeter.ProcessedPerimeter)
    (hp : Perimeter.processFirePerimeter ops f = some p)
    (ha : ∀ a ∈ f.properties.GIS_ACRES, 0 ≤ a) :
    1 ≤ p.metrics.aspectRatio ∧ 0 ≤ p.metrics.compactness := by
  unfold Perimeter.processFirePerimeter at hp
  dsimp only at hp
  rcases hga : f.properties.GIS_ACRES with _ | a
  · rw [hga] at hp
    simp at hp
  · have ha2 : 0 ≤ a := ha a (by rw [hga]; rfl)
    rw [hga] at hp
    split at hp
    · exact absurd hp (by simp)
    · split at hp
      · exact absurd hp (by simp)
      · split at hp
        · exact absurd hp (by simp)
        · split at hp
          · exact absurd hp (by simp)
          · split at hp
            · exact absurd hp (by simp)
            · rw [Option.some_inj] at hp
              subst hp
              refine ⟨calculateAspectRatio_ge_one _, ?_⟩
              exact calculateCompactness_nonneg _ _
                (by simpa [Perimeter.acresToKm2] using
                  mul_nonneg ha2 (by norm_num : (0:ℚ) ≤ 0.00404686))

/-- C3 (counterexample): the fixture record with a valid unit-square
polygon and 0 recorded acres is accepted, yet its computed compactness is
0, which does not lie in the interval (0, 1]. -/
theorem processFirePerimeter_compactness_zero :
    (Perimeter.processFirePerimeter Fixtures.zeroGeom
        Fixtures.sqAcresZeroFeature).map (fun q => q.metrics.compactness)
      = some 0 ∧ ¬((0 : ℚ) < 0) := by
  constructor
  · norm_num [Perimeter.processFirePerimeter, Fixtures.sqAcresZeroFeature,
      Fixtures.zeroGeom, truthyStr, truthyNum, Perimeter.calculateDuration,
      Perimeter.normalizeGeometry, Perimeter.polyRingsValid,
      Perimeter.ringValid, Perimeter.calculateCompactness,
      Perimeter.acresToKm2]
    exact ⟨_, ⟨by decide, rfl⟩, rfl⟩
  · norm_num

/-- Witness for C3: the accepted fixture of the counterexample instantiates
the amended theorem. -/
theorem processFirePerimeter_shape_bounds_witness :
    (∀ a ∈ Fixtures.sqAcresZeroFeature.properties.GIS_ACRES, 0 ≤ a) ∧
    ∃ p, Perimeter.processFirePerimeter Fixtures.zeroGeom
        Fixtures.sqAcresZeroFeature = some p ∧
      1 ≤ p.metrics.aspectRatio ∧ 0 ≤ p.metrics.compactness := by
  have ha : ∀ a ∈ Fixtures.sqAcresZeroFeature.properties.GIS_ACRES, 0 ≤ a := by
    intro a haa
    simp [Fixtures.sqAcresZeroFeature] at haa
    simp [haa]
  have hs : (Perimeter.processFirePerimeter Fixtures.zeroGeom
      Fixtures.sqAcresZeroFeature).isSome = true := by
    norm_num [Perimeter.processFirePerimeter, Fixtures.sqAcresZeroFeature,
      Fixtures.zeroGeom, truthyStr, truthyNum, Perimeter.calculateDuration,
      Perimeter.normalizeGeometry, Perimeter.polyRingsValid,
      Perimeter.ringValid]
    decide
  rcases Option.isSome_iff_exists.mp hs with ⟨p, hp⟩
  exact ⟨ha, p, hp,
    processFirePerimeter_shape_bounds Fixtures.zeroGeom
      Fixtures.sqAcresZeroFeature p hp ha⟩

/-- Helper: the batch loop counts agree with the input length. -/
theorem processBatchGo_count (ops : Perimeter.GeomOps) :
    ∀ features : List Perimeter.RawFireFeature,
      (Perimeter.processBatchGo ops features).1.length +
        (Perimeter.processBatchGo ops features).2.2 +
        (Perimeter.processBatchGo ops features).2.1 = features.length := by
  intro features
  induction features with
  | nil => simp [Perimeter.processBatchGo]
  | cons f rest ih =>
    simp only [Perimeter.processBatchGo]
    cases hp : Perimeter.processFirePerimeter ops f with
    | some p =>
      dsimp only
      simp only [List.length_cons]
      omega
    | none =>
      dsimp only
      split <;> (dsimp only; simp only [List.length_cons]; omega)

/-- C10: for every geometry kernel and input collection,
`processAllPerimeters` conserves counts: `stats.total` is the input length,
`stats.successful` is the length of the returned processed list, and
`successful + skipped + failed = total`. -/
theorem processAllPerimeters_conserves_counts (ops : Perimeter.GeomOps)
    (features : List Perimeter.RawFireFeature) :
    (Perimeter.processAllPerimeters ops features).stats.total
        = features.length ∧
    (Perimeter.processAllPerimeters ops features).stats.successful
        = (Perimeter.processAllPerimeters ops features).processed.length ∧
    (Perimeter.processAllPerimeters ops features).stats.successful
        + (Perimeter.processAllPerimeters ops features).stats.skipped
        + (Perimeter.processAllPerimeters ops features).stats.failed
        = (Perimeter.processAllPerimeters ops features).stats.total := by
  refine ⟨rfl, rfl, ?_⟩
  have h := processBatchGo_count ops features
  simp only [Perimeter.processAllPerimeters]
  omega

/-- C1: the batch entry point counts a duration-invalid record and an
acreage-missing record as "failed", not "skipped" — the skip re-check in
`processAllPerimeters` only tests the name, alarm date and containment
date, so for every geometry kernel both fixture records land in the
"failed" bucket, contradicting the spec's taxonomy (and the processor's
own "skip" comments). -/
theorem processAllPerimeters_misclassifies_skips (ops : Perimeter.GeomOps) :
    (Perimeter.processAllPerimeters ops
        [Fixtures.durInvalidFeature, Fixtures.acresMissingFeature]).stats.failed
      = 2 ∧
    (Perimeter.processAllPerimeters ops
        [Fixtures.durInvalidFeature, Fixtures.acresMissingFeature]).stats.skipped
      = 0 := by
  have h1 : Perimeter.processFirePerimeter ops Fixtures.durInvalidFeature
      = none := by
    unfold Perimeter.processFirePerimeter
    norm_num [Fixtures.durInvalidFeature, truthyStr, truthyNum,
      Perimeter.calculateDuration]
  have h2 : Perimeter.processFirePerimeter ops Fixtures.acresMissingFeature
      = none := by
    unfold Perimeter.processFirePerimeter
    norm_num [Fixtures.acresMissingFeature, truthyStr, truthyNum]
  simp only [Perimeter.processAllPerimeters, Perimeter.processBatchGo, h1, h2]
  norm_num [Fixtures.durInvalidFeature, Fixtures.acresMissingFeature,
    truthyStr, truthyNum]
  decide

/-- C9: for every `Math.atan2` kernel, five elevation samples and positive
cell size, whenever the central-difference gradient magnitude
`sqrt((dz/dx)² + (dz/dy)²)` is below 0.01, `calculateAspect` reports the
sentinel "flat" rather than a numeric compass bearing. -/
theorem calculateAspect_flat_on_small_gradient (atan2F : ℚ → ℚ → ℚ)
    (centerElev northElev southElev eastElev westElev cellSize : ℚ)
    (hc : 0 < cellSize)
    (hgrad : Real.sqrt ((((eastElev - westElev) / (2 * cellSize) : ℚ) : ℝ) ^ 2 +
        (((northElev - southElev) / (2 * cellSize) : ℚ) : ℝ) ^ 2) < 1 / 100) :
    (Terrain.calculateAspect atan2F centerElev northElev southElev eastElev
        westElev cellSize).2 = "flat" := by
  have h2 := (Real.sqrt_lt' (by norm_num : (0 : ℝ) < 1 / 100)).mp hgrad
  have hq : ((eastElev - westElev) / (2 * cellSize)) ^ 2 +
      ((northElev - southElev) / (2 * cellSize)) ^ 2 < 1 / 10000 := by
    have h3 : (((1 : ℝ) / 100) ^ 2) = ((1 : ℚ) / 10000 : ℚ) := by norm_num
    rw [h3] at h2
    exact_mod_cast h2
  unfold Terrain.calculateAspect
  dsimp only
  rw [if_pos hq]

/-- Witness for C9 at five equal elevation samples and cell size 1. -/
theorem calculateAspect_flat_witness :
    (0 : ℚ) < 1 ∧
    Real.sqrt ((((0 - 0 : ℚ) / (2 * 1) : ℚ) : ℝ) ^ 2 +
        (((0 - 0 : ℚ) / (2 * 1) : ℚ) : ℝ) ^ 2) < 1 / 100 ∧
    (Terrain.calculateAspect (fun _ _ => 0) 5 0 0 0 0 1).2 = "flat" := by
  have hg : Real.sqrt ((((0 - 0 : ℚ) / (2 * 1) : ℚ) : ℝ) ^ 2 +
      (((0 - 0 : ℚ) / (2 * 1) : ℚ) : ℝ) ^ 2) < 1 / 100 := by
    norm_num [Real.sqrt_zero]
  exact ⟨by norm_num, hg,
    calculateAspect_flat_on_small_gradient (fun _ _ => 0) 5 0 0 0 0 1
      (by norm_num) hg⟩

/-- C8 (amended): `getTerrainMetrics` is a pure function of the location
and the sequence of `Math.random` draws, and its elevation, aspect and
aspect-degrees fields depend only on the location — but the slope and the
fields derived from it also depend on the draws, so two calls at the same
coordinates need not return identical metrics (see the counterexample). -/
theorem getTerrainMetrics_location_fields (atanF : ℚ → ℚ)
    (lat lon r1 r2 r3 r4 s1 s2 s3 s4 : ℚ) :
    (Terrain.getTerrainMetrics atanF lat lon r1 r2 r3 r4).elevation
        = (Terrain.getTerrainMetrics atanF lat lon s1 s2 s3 s4).elevation ∧
    (Terrain.getTerrainMetrics atanF lat lon r1 r2 r3 r4).aspectDegrees
        = (Terrain.getTerrainMetrics atanF lat lon s1 s2 s3 s4).aspectDegrees ∧
    (Terrain.getTerrainMetrics atanF lat lon r1 r2 r3 r4).aspect
        = (Terrain.getTerrainMetrics atanF lat lon s1 s2 s3 s4).aspect :=
  ⟨rfl, rfl, rfl⟩

/-- C8 (counterexample): two calls of `getTerrainMetrics` at the same
coordinates, differing only in the `Math.random` draws, return different
metrics: the slope is `10 + r1 * 20`, so draw 0 yields slope 10 and draw
1/2 yields slope 20. -/
theorem getTerrainMetrics_not_deterministic :
    Terrain.getTerrainMetrics (fun q => q) 37 36 0 0 0 0
      ≠ Terrain.getTerrainMetrics (fun q => q) 37 36 (1 / 2) 0 0 0 := by
  intro h
  have hs := congrArg TerrainMetrics.slope h
  simp only [Terrain.getTerrainMetrics] at hs
  norm_num at hs

/-- C7: `generateReasoning` can return a single bullet.  On an evacuation
card for an IAP record with no recorded weather and no recorded fuel, no
category-specific or fuel bullet is produced, and the final padding step
appends only one generic relevance bullet, so the result has length 1 —
although the source comments intend at least 2. -/
theorem generateReasoning_single_bullet :
    IAP.generateReasoning
        { name := "NOW", lat := 0, lon := 0, fuelProxy := "grass",
          perimeter := { radiusMeters := 1000 } }
        { windSpeedMps := 10, humidityPct := 20, windDirDeg := 0,
          temperatureC := 20 }
        { id := "iap_x", incidentName := "X", location := { county := none },
          conditions := { fuel := none, weather := none, acres := none },
          sections := [], tacticalLessons := [], rawText := none }
        60 CardType.evacuation
      = ["Overall relevance: " ++ toString (60 : ℤ) ++ "%"] := by
  norm_num [IAP.generateReasoning, truthyStr, truthyNum,
    IAP.FUEL_COMPATIBILITY_MAP]
  decide

/-- Helper: specification of the map-filter-sort-take-project pipeline that
ends `findFiresNearLocation`: every output value passes the filter bound,
the output length respects the limit, and the output is sorted ascending by
the measured value. -/
theorem sortFilterTake_spec {α : Type} {dval : α → ℚ} {r : ℚ}
    {nb : List (α × ℚ)} (limit : ℕ)
    (hmemnb : ∀ p ∈ nb, p.2 = dval p.1 ∧ p.2 ≤ r) :
    (∀ f ∈ ((sortJS (fun a b => decide (a.2 ≤ b.2)) nb).take limit).map
        (fun item => item.1), dval f ≤ r) ∧
    (((sortJS (fun a b => decide (a.2 ≤ b.2)) nb).take limit).map
        (fun item => item.1)).length ≤ limit ∧
    (((sortJS (fun a b => decide (a.2 ≤ b.2)) nb).take limit).map
        (fun item => item.1)).Pairwise (fun a b => dval a ≤ dval b) := by
  have hsorted : (sortJS (fun a b : α × ℚ => decide (a.2 ≤ b.2)) nb).Pairwise
      (fun a b => decide (a.2 ≤ b.2) = true) := by
    apply pairwise_sortJS
    · intro a b c h1 h2
      simp only [decide_eq_true_eq] at h1 h2 ⊢
      exact le_trans h1 h2
    · intro a b
      simp only [decide_eq_true_eq]
      exact le_total a.2 b.2
  have htake_mem : ∀ p ∈ (sortJS (fun a b : α × ℚ => decide (a.2 ≤ b.2))
      nb).take limit, p.2 = dval p.1 ∧ p.2 ≤ r := by
    intro p hp
    exact hmemnb p (mem_sortJS.mp (List.take_subset _ _ hp))
  refine ⟨?_, ?_, ?_⟩
  · intro f hf
    rcases List.mem_map.mp hf with ⟨p, hp, rfl⟩
    rcases htake_mem p hp with ⟨h1, h2⟩
    rw [← h1]
    exact h2
  · rw [List.length_map]
    exact List.length_take_le _ _
  · rw [List.pairwise_map]
    refine List.Pairwise.imp_of_mem ?_
      (List.Pairwise.sublist (List.take_sublist _ _) hsorted)
    intro p q hpm hqm hle
    simp only [decide_eq_true_eq] at hle
    rw [← (htake_mem p hpm).1, ← (htake_mem q hqm).1]
    exact hle

/-- C5: for every distance kernel, indexed dataset, query point, radius and
limit, every fire returned by `findFiresNearLocation` has kernel distance
from the query point to its bounds centre at most the radius, the returned
list is no longer than the limit, and it is sorted ascending by that
distance.  The haversine `calculateDistance` is one instance of the
quantified kernel. -/
theorem findFiresNearLocation_spec (dist : ℚ → ℚ → ℚ → ℚ → ℚ)
    (all : List Spread.DirectionalSpread) (lat lon radiusKm : ℚ)
    (limit : ℕ) :
    (∀ f ∈ Spread.findFiresNearLocation dist all lat lon radiusKm limit,
      dist lat lon f.bounds.centerLat f.bounds.centerLon ≤ radiusKm) ∧
    (Spread.findFiresNearLocation dist all lat lon radiusKm limit).length
      ≤ limit ∧
    (Spread.findFiresNearLocation dist all lat lon radiusKm limit).Pairwise
      (fun a b => dist lat lon a.bounds.centerLat a.bounds.centerLon
        ≤ dist lat lon b.bounds.centerLat b.bounds.centerLon) := by
  unfold Spread.findFiresNearLocation
  dsimp only
  apply sortFilterTake_spec limit
  intro p hp
  rcases List.mem_filter.mp hp with ⟨hmap, hle⟩
  rcases List.mem_map.mp hmap with ⟨x, _, rfl⟩
  exact ⟨rfl, by simpa using hle⟩

/-- Witness for C5 on a one-fire dataset at the origin with radius 0. -/
theorem findFiresNearLocation_spec_witness :
    Fixtures.fire0 ∈
      Spread.findFiresNearLocation Fixtures.distZ [Fixtures.fire0] 0 0 0 10 ∧
    Fixtures.distZ 0 0 Fixtures.fire0.bounds.centerLat
        Fixtures.fire0.bounds.centerLon ≤ 0 ∧
    (Spread.findFiresNearLocation Fixtures.distZ [Fixtures.fire0] 0 0 0 10).length
      ≤ 10 := by
  have hmem : Fixtures.fire0 ∈
      Spread.findFiresNearLocation Fixtures.distZ [Fixtures.fire0] 0 0 0 10 := by
    norm_num [Spread.findFiresNearLocation, Spread.gridKey,
      Spread.intRangeIncl, Spread.dedupGo, sortJS, insertLe,
      Fixtures.distZ, Fixtures.fire0, List.flatMap]
  have h := findFiresNearLocation_spec Fixtures.distZ [Fixtures.fire0] 0 0 0 10
  exact ⟨hmem, h.1 Fixtures.fire0 hmem, h.2.1⟩

/-- C6: for every distance kernel and dataset, `predictSpreadPattern` caps
the analog count at 15 and maps it monotonically to confidence: 0 analogs
yield the "UNKNOWN"/"low" prediction with the single no-data reasoning
string, 1–4 yield "low", 5–9 "medium", and 10 or more "high". -/
theorem predictSpreadPattern_confidence (dist : ℚ → ℚ → ℚ → ℚ → ℚ)
    (all : List Spread.DirectionalSpread) (incident : Incident)
    (windDirDeg : ℚ) :
    (Spread.predictSpreadPattern dist all incident windDirDeg).similarFires.length
      ≤ 15 ∧
    ((Spread.predictSpreadPattern dist all incident windDirDeg).similarFires.length
        = 0 →
      (Spread.predictSpreadPattern dist all incident windDirDeg).prediction.likelyDirection
          = "UNKNOWN" ∧
      (Spread.predictSpreadPattern dist all incident windDirDeg).prediction.confidence
          = "low" ∧
      (Spread.predictSpreadPattern dist all incident windDirDeg).prediction.reasoning
          = ["No similar historical fires found in the area"]) ∧
    (1 ≤ (Spread.predictSpreadPattern dist all incident windDirDeg).similarFires.length →
      (Spread.predictSpreadPattern dist all incident windDirDeg).similarFires.length ≤ 4 →
      (Spread.predictSpreadPattern dist all incident windDirDeg).prediction.confidence
        = "low") ∧
    (5 ≤ (Spread.predictSpreadPattern dist all incident windDirDeg).similarFires.length →
      (Spread.predictSpreadPattern dist all incident windDirDeg).similarFires.length ≤ 9 →
      (Spread.predictSpreadPattern dist all incident windDirDeg).prediction.confidence
        = "medium") ∧
    (10 ≤ (Spread.predictSpreadPattern dist all incident windDirDeg).similarFires.length →
      (Spread.predictSpreadPattern dist all incident windDirDeg).prediction.confidence
        = "high") := by
  have hn15 : (Spread.findSimilarFires dist all incident 100 15).length ≤ 15 := by
    unfold Spread.findSimilarFires
    dsimp only
    exact List.length_take_le _ _
  unfold Spread.predictSpreadPattern
  dsimp only
  split
  · rename_i h0
    refine ⟨by simp, fun _ => ⟨rfl, rfl, rfl⟩, ?_, ?_, ?_⟩ <;>
      (intro h1; simp at h1)
  · rename_i h0
    dsimp only
    refine ⟨hn15, fun h => absurd h h0, ?_, ?_, ?_⟩
    · intro h1 h4
      rw [if_neg (by omega), if_neg (by omega)]
    · intro h5 h9
      rw [if_neg (by omega), if_pos (by omega)]
    · intro h10
      rw [if_pos (by omega)]

/-- Witness for C6 on the empty dataset: zero analogs produce the
"UNKNOWN"/"low" prediction with its single reasoning string. -/
theorem predictSpreadPattern_confidence_witness :
    (Spread.predictSpreadPattern Fixtures.distZ [] Fixtures.plainIncident 0).similarFires.length
      = 0 ∧
    (Spread.predictSpreadPattern Fixtures.distZ [] Fixtures.plainIncident 0).prediction.likelyDirection
      = "UNKNOWN" ∧
    (Spread.predictSpreadPattern Fixtures.distZ [] Fixtures.plainIncident 0).prediction.confidence
      = "low" ∧
    (Spread.predictSpreadPattern Fixtures.distZ [] Fixtures.plainIncident 0).prediction.reasoning
      = ["No similar historical fires found in the area"] := by
  have hflat : ∀ (l : List (ℚ × ℚ)),
      (l.flatMap fun _ => ([] : List Spread.DirectionalSpread)) = [] := by
    intro l
    induction l with
    | nil => rfl
    | cons x xs ih => simpa using ih
  have hnear : Spread.findFiresNearLocation Fixtures.distZ []
      Fixtures.plainIncident.lat Fixtures.plainIncident.lon 100 (15 * 2)
      = [] := by
    unfold Spread.findFiresNearLocation
    dsimp only
    simp [sortJS, hflat]
  have h0 : (Spread.predictSpreadPattern Fixtures.distZ []
      Fixtures.plainIncident 0).similarFires.length = 0 := by
    simp [Spread.predictSpreadPattern, Spread.findSimilarFires, hnear, sortJS]
  have h := (predictSpreadPattern_confidence Fixtures.distZ []
    Fixtures.plainIncident 0).2.1 h0
  exact ⟨h0, h.1, h.2.1, h.2.2⟩

/-- Helper: the fuel-match rubric term lies in [0, 25]. -/
theorem fuelScore_bounds (incident : Incident) (iap : IAPData) :
    0 ≤ IAP.fuelScore incident iap ∧ IAP.fuelScore incident iap ≤ 25 := by
  unfold IAP.fuelScore
  constructor <;> (dsimp only; repeat' split) <;> norm_num

/-- Helper: the wind-closeness rubric term lies in [0, 15]. -/
theorem windScore_bounds (weather : Weather) (iap : IAPData) :
    0 ≤ IAP.windScore weather iap ∧ IAP.windScore weather iap ≤ 15 := by
  unfold IAP.windScore
  constructor <;> (dsimp only; repeat' split) <;> norm_num

/-- Helper: the humidity-closeness rubric term lies in [0, 10]. -/
theorem humidityScore_bounds (weather : Weather) (iap : IAPData) :
    0 ≤ IAP.humidityScore weather iap ∧
      IAP.humidityScore weather iap ≤ 10 := by
  unfold IAP.humidityScore
  constructor <;> (dsimp only; repeat' split) <;> norm_num

/-- Helper: the section-availability rubric term lies in [0, 25]. -/
theorem sectionScore_bounds (cardType : CardType) (iap : IAPData) :
    0 ≤ IAP.sectionScore cardType iap ∧
      IAP.sectionScore cardType iap ≤ 25 := by
  unfold IAP.sectionScore
  constructor <;> (dsimp only; repeat' split) <;> norm_num

/-- Helper: for a nonnegative recorded acreage, the incident-scale rubric
term lies in [0, 15]: the size ratio divides the smaller of two nonnegative
quantities by the larger, which is positive in the taken branch. -/
theorem scaleScore_bounds (incident : Incident) (iap : IAPData)
    (ha : ∀ a ∈ iap.conditions.acres, 0 ≤ a) :
    0 ≤ IAP.scaleScore incident iap ∧ IAP.scaleScore incident iap ≤ 15 := by
  unfold IAP.scaleScore
  dsimp only
  split
  · rename_i htr
    rcases hac : iap.conditions.acres with _ | a
    · rw [hac] at htr
      simp [truthyNum] at htr
    · have ha0 : 0 ≤ a := ha a (by rw [hac]; rfl)
      have hane : a ≠ 0 := by
        rw [hac] at htr
        simpa [truthyNum] using htr
      have hapos : 0 < a := lt_of_le_of_ne ha0 (Ne.symm hane)
      simp only [Option.getD_some]
      set rk := incident.perimeter.radiusMeters / 1000 with hrk
      have hest : 0 ≤ piJS * rk * rk * 247.105 := by
        nlinarith [piJS_pos, mul_self_nonneg rk]
      have hmax : 0 < max (piJS * rk * rk * 247.105) a :=
        lt_max_iff.mpr (Or.inr hapos)
      have hmin0 : 0 ≤ min (piJS * rk * rk * 247.105) a := le_min hest ha0
      have hratio1 : min (piJS * rk * rk * 247.105) a /
          max (piJS * rk * rk * 247.105) a ≤ 1 :=
        (div_le_one hmax).mpr (min_le_max)
      have hratio0 : 0 ≤ min (piJS * rk * rk * 247.105) a /
          max (piJS * rk * rk * 247.105) a := div_nonneg hmin0 hmax.le
      constructor
      · nlinarith
      · nlinarith
  · norm_num

/-- Helper: the terrain rubric term lies in [0, 20]: the terrain-text
similarity lies in [0, 100] and is rescaled by 20/100. -/
theorem terrainScore_bounds (cardType : CardType) (iap : IAPData)
    (terrain : Option TerrainMetrics) :
    0 ≤ IAP.terrainScore cardType iap terrain ∧
      IAP.terrainScore cardType iap terrain ≤ 20 := by
  unfold IAP.terrainScore
  split
  · split
    · rename_i tm
      split
      · have h0 := Terrain.calculateTerrainSimilarity_nonneg tm
          (iap.rawText.getD "")
        have h100 := Terrain.calculateTerrainSimilarity_le tm
          (iap.rawText.getD "")
        constructor <;> nlinarith
      · norm_num
    · norm_num
  · norm_num

/-- C2 (amended): for every incident, weather, card type, IAP record with
nonnegative recorded acreage, and optional terrain, the similarity score
lies in [0, 110] — the rubric's per-term maxima (fuel 25, wind 15,
humidity 10, scale 15, sections 25, terrain 20) sum to 110, not 100, and
the score itself is not clipped to 100 (see the counterexample). -/
theorem calculateIAPSimilarity_range (incident : Incident)
    (weather : Weather) (cardType : CardType) (iap : IAPData)
    (terrain : Option TerrainMetrics)
    (ha : ∀ a ∈ iap.conditions.acres, 0 ≤ a) :
    0 ≤ IAP.calculateIAPSimilarity incident weather cardType iap terrain ∧
    IAP.calculateIAPSimilarity incident weather cardType iap terrain ≤ 110 := by
  have h1 := fuelScore_bounds incident iap
  have h2 := windScore_bounds weather iap
  have h3 := humidityScore_bounds weather iap
  have h4 := scaleScore_bounds incident iap ha
  have h5 := sectionScore_bounds cardType iap
  have h6 := terrainScore_bounds cardType iap terrain
  unfold IAP.calculateIAPSimilarity
  constructor
  · exact roundJS_nonneg (by linarith [h1.1, h2.1, h3.1, h4.1, h5.1, h6.1])
  · exact roundJS_le_int (by push_cast; linarith [h1.2, h2.2, h3.2, h4.2, h5.2, h6.2])

/-- C2 (counterexample): on the fixture inputs the similarity score is 106,
above 100: all five rubric terms reach their maxima (the terrain term
reaches its achievable maximum 16, from the similarity cap 80), and the
rubric's per-term maxima sum to 110, not 100. -/
theorem calculateIAPSimilarity_exceeds_100 :
    IAP.calculateIAPSimilarity Fixtures.incC2 Fixtures.wC2 CardType.tactics
        Fixtures.iapC2 (some Fixtures.tmC2) = 106 ∧
    ¬(IAP.calculateIAPSimilarity Fixtures.incC2 Fixtures.wC2 CardType.tactics
        Fixtures.iapC2 (some Fixtures.tmC2) ≤ 100) := by
  have hane : piJS * (247.105 : ℚ) ≠ 0 := by norm_num [piJS]
  have hf : IAP.fuelScore Fixtures.incC2 Fixtures.iapC2 = 25 := by decide
  have hw : IAP.windScore Fixtures.wC2 Fixtures.iapC2 = 15 := by
    norm_num [IAP.windScore, Fixtures.wC2, Fixtures.iapC2]
  have hh : IAP.humidityScore Fixtures.wC2 Fixtures.iapC2 = 10 := by
    norm_num [IAP.humidityScore, Fixtures.wC2, Fixtures.iapC2]
  have hsc : IAP.scaleScore Fixtures.incC2 Fixtures.iapC2 = 15 := by
    unfold IAP.scaleScore
    rw [if_pos]
    · simp only [Fixtures.incC2, Fixtures.iapC2, Option.getD_some]
      have he : piJS * ((1000 : ℚ) / 1000) * (1000 / 1000) * 247.105
          = piJS * 247.105 := by norm_num
      rw [he, min_self, max_self, div_self hane]
      norm_num
    · simp only [Fixtures.iapC2, truthyNum]
      simpa using hane
  have hsec : IAP.sectionScore CardType.tactics Fixtures.iapC2 = 25 := by
    decide
  have hsim : Terrain.calculateTerrainSimilarity Fixtures.tmC2
      "steep ridge terrain s-facing." = 80 := by
    have i1 : includesJS (lowerStr "steep ridge terrain s-facing.") "steep"
        = true := by decide
    have i2 : includesJS (lowerStr "steep ridge terrain s-facing.") "ridge"
        = true := by decide
    have i3 : includesJS (lowerStr "steep ridge terrain s-facing.") "terrain"
        = true := by decide
    have i4 : includesJS (lowerStr "steep ridge terrain s-facing.")
        (lowerStr "S" ++ "-facing") = true := by decide
    unfold Terrain.calculateTerrainSimilarity
    norm_num [Fixtures.tmC2, i1, i2, i3, i4]
  have ht : IAP.terrainScore CardType.tactics Fixtures.iapC2
      (some Fixtures.tmC2) = 16 := by
    unfold IAP.terrainScore
    norm_num [Fixtures.iapC2, truthyStr, hsim]
    decide
  have heq : IAP.calculateIAPSimilarity Fixtures.incC2 Fixtures.wC2
      CardType.tactics Fixtures.iapC2 (some Fixtures.tmC2) = 106 := by
    unfold IAP.calculateIAPSimilarity
    rw [hf, hw, hh, hsc, hsec, ht]
    norm_num [roundJS]
  exact ⟨heq, by rw [heq]; norm_num⟩

/-- Witness for C2: the amended range theorem instantiated on the fixture
inputs, whose recorded acreage is nonnegative. -/
theorem calculateIAPSimilarity_range_witness :
    (∀ a ∈ Fixtures.iapC2.conditions.acres, 0 ≤ a) ∧
    0 ≤ IAP.calculateIAPSimilarity Fixtures.incC2 Fixtures.wC2
        CardType.tactics Fixtures.iapC2 (some Fixtures.tmC2) ∧
    IAP.calculateIAPSimilarity Fixtures.incC2 Fixtures.wC2 CardType.tactics
        Fixtures.iapC2 (some Fixtures.tmC2) ≤ 110 := by
  have ha : ∀ a ∈ Fixtures.iapC2.conditions.acres, 0 ≤ a := by
    intro a haa
    simp only [Fixtures.iapC2, Option.mem_def, Option.some_inj] at haa
    rw [← haa]
    norm_num [piJS]
  have h := calculateIAPSimilarity_range Fixtures.incC2 Fixtures.wC2
    CardType.tactics Fixtures.iapC2 (some Fixtures.tmC2) ha
  exact ⟨ha, h.1, h.2⟩

/-- Helper: specification of the take-then-filterMap tail of the matcher
pipeline: at most `n` outputs, every output's score meets the threshold its
source met, and the descending order of sources transfers to outputs. -/
theorem filterMapTake_spec {α β : Type} (key : α → ℤ) (thr : ℤ)
    {mk : α → Option β} {sc : β → ℤ} {l : List α} (n : ℕ)
    (hmk : ∀ a b, mk a = some b → sc b = key a)
    (hl : ∀ a ∈ l, thr ≤ key a)
    (hp : l.Pairwise (fun a b => key b ≤ key a)) :
    ((l.take n).filterMap mk).length ≤ n ∧
    (∀ b ∈ (l.take n).filterMap mk, thr ≤ sc b) ∧
    ((l.take n).filterMap mk).Pairwise (fun a b => sc b ≤ sc a) := by
  refine ⟨?_, ?_, ?_⟩
  · exact le_trans (List.length_filterMap_le _ _) (List.length_take_le _ _)
  · intro b hb
    rcases List.mem_filterMap.mp hb with ⟨a, haIn, hmkEq⟩
    rw [hmk a b hmkEq]
    exact hl a (List.take_subset _ _ haIn)
  · have hptake : (l.take n).Pairwise (fun a b => key b ≤ key a) :=
      List.Pairwise.sublist (List.take_sublist _ _) hp
    rw [List.pairwise_filterMap]
    refine hptake.imp ?_
    intro a a2 hkey b hb b2 hb2
    rw [hmk a b hb, hmk a2 b2 hb2]
    exact hkey

/-- C4: for every IAP dataset, incident, weather, card type and optional
terrain, `findRelevantIAPs` returns at most 3 insights, every returned
insight has relevance score at least 60, and the returned list is sorted
by relevance score descending. -/
theorem findRelevantIAPs_spec (iapData : List IAPData) (incident : Incident)
    (weather : Weather) (cardType : CardType)
    (terrain : Option TerrainMetrics) :
    (IAP.findRelevantIAPs iapData incident weather cardType terrain).length
      ≤ 3 ∧
    (∀ ins ∈ IAP.findRelevantIAPs iapData incident weather cardType terrain,
      60 ≤ ins.relevanceScore) ∧
    (IAP.findRelevantIAPs iapData incident weather cardType terrain).Pairwise
      (fun a b => b.relevanceScore ≤ a.relevanceScore) := by
  unfold IAP.findRelevantIAPs
  split
  · simp
  · dsimp only
    simp only [IAP.MAX_IAP_INSIGHTS, IAP.MIN_IAP_SCORE]
    refine filterMapTake_spec (fun p => p.2) 60 3 ?_ ?_ ?_
    · intro p ins h
      rcases hm : (p.1.sections.find? fun s =>
          (IAP.RELEVANT_SECTIONS cardType).contains s.type).orElse
          (fun _ => p.1.sections.head?) with _ | sec
      · rw [hm] at h
        simp at h
      · rw [hm] at h
        simp only [Option.some_inj] at h
        rw [← h]
    · intro p hp
      have h := List.of_mem_filter (mem_sortJS.mp hp)
      simpa using h
    · refine (pairwise_sortJS ?_ ?_ _).imp ?_
      · intro a b c h1 h2
        simp only [decide_eq_true_eq] at h1 h2 ⊢
        omega
      · intro a b
        simp only [decide_eq_true_eq]
        omega
      · intro a b h
        simpa using h

/-- Witness for C4 on a one-record dataset scoring 82 on a resources card:
the matcher returns exactly the fixture insight, which the theorem bounds
below by 60 within a list of at most three. -/
theorem findRelevantIAPs_spec_witness :
    Fixtures.insRes ∈ IAP.findRelevantIAPs [Fixtures.iapRes]
      Fixtures.plainIncident Fixtures.wC2 CardType.resources none ∧
    60 ≤ Fixtures.insRes.relevanceScore ∧
    (IAP.findRelevantIAPs [Fixtures.iapRes] Fixtures.plainIncident
      Fixtures.wC2 CardType.resources none).length ≤ 3 := by
  have hscore : IAP.calculateIAPSimilarity Fixtures.plainIncident
      Fixtures.wC2 CardType.resources Fixtures.iapRes none = 82 := by
    have hf : IAP.fuelScore Fixtures.plainIncident Fixtures.iapRes = 25 := by
      decide
    have hw : IAP.windScore Fixtures.wC2 Fixtures.iapRes = 15 := by
      norm_num [IAP.windScore, Fixtures.wC2, Fixtures.iapRes]
    have hh : IAP.humidityScore Fixtures.wC2 Fixtures.iapRes = 10 := by
      norm_num [IAP.humidityScore, Fixtures.wC2, Fixtures.iapRes]
    have hsc : IAP.scaleScore Fixtures.plainIncident Fixtures.iapRes = 7 := by
      norm_num [IAP.scaleScore, Fixtures.iapRes, truthyNum]
    have hsec : IAP.sectionScore CardType.resources Fixtures.iapRes = 25 := by
      decide
    have ht : IAP.terrainScore CardType.resources Fixtures.iapRes none = 0 := by
      decide
    unfold IAP.calculateIAPSimilarity
    rw [hf, hw, hh, hsc, hsec, ht]
    norm_num [roundJS]
  have hres : IAP.findRelevantIAPs [Fixtures.iapRes] Fixtures.plainIncident
      Fixtures.wC2 CardType.resources none = [Fixtures.insRes] := by
    unfold IAP.findRelevantIAPs
    rw [if_neg (by decide)]
    dsimp only
    simp only [List.map_cons, List.map_nil, hscore]
    decide
  have h := findRelevantIAPs_spec [Fixtures.iapRes] Fixtures.plainIncident
    Fixtures.wC2 CardType.resources none
  have hmem : Fixtures.insRes ∈ IAP.findRelevantIAPs [Fixtures.iapRes]
      Fixtures.plainIncident Fixtures.wC2 CardType.resources none := by
    rw [hres]
    exact List.mem_singleton.mpr rfl
  exact ⟨hmem, h.2.1 Fixtures.insRes hmem, h.1⟩

end Flashpoint
